import Mathlib

/-!
Shallow embedding of `src/day_69_adding_users_to_blog/main.py`, a Flask blog
application backed by a SQLite store with three tables (users, blog_posts,
comments).  Each Flask route handler is embedded as a pure function from the
current store (and the session identity, where the handler consults
`current_user`) to a `Response` — the HTTP-level outcome together with the
flash messages emitted — paired with the store after the request.

Conventions of the embedding:
* The database session (`db.session.add` / `commit`) is modelled by returning
  the updated `Store`; a failed commit leaves the store unchanged.
* `current_user` (flask_login) is modelled by `current_user`: the session
  carries an optional user id, resolved through `load_user` against the users
  table; an id that resolves to no row behaves like an anonymous session,
  exactly as flask_login substitutes its anonymous user when the user loader
  returns `None`.
* An uncaught Python exception (which Flask surfaces as an HTTP 500 page) is
  the `Outcome.pyFault` constructor, tagged with the exception class.
* Flash message strings and redirect targets are represented by inductive
  tags; the doc comment of each constructor records the literal string.
* Each handler is embedded at its mutating path: the POST request whose
  WTForms form validates (`validate_on_submit()` true).  The plain GET
  rendering paths perform no store access beyond reads and are not claimed
  about.
-/

namespace Day69

/-- Modelled from the spec: `werkzeug.security`'s PBKDF2-HMAC-SHA256 digest
primitive is external library code, absent from `src/`.  The spec specifies
only its verification contract — the stored salted hash verifies against the
original plaintext and fails against any other plaintext — so the digest is
idealized as a perfectly collision-free keyed digest. -/
def pbkdf2_sha256 (salt password : String) : List Char :=
  salt.data ++ password.data

/-- Modelled from the spec: the parsed form of the werkzeug hash string
`method$salt$hash` stored in the `users.password` column
(`generate_password_hash(..., method="pbkdf2:sha256", salt_length=8)`).
werkzeug serializes and re-parses this triple bijectively, so the column is
modelled structurally. -/
structure PwHash where
  method : String
  salt : String
  digest : List Char
deriving DecidableEq

/-- Modelled from the spec: `werkzeug.security.generate_password_hash` with
`method="pbkdf2:sha256"`.  The randomly drawn salt is passed explicitly. -/
def generate_password_hash (password salt : String) : PwHash :=
  { method := "pbkdf2:sha256", salt := salt, digest := pbkdf2_sha256 salt password }

/-- Modelled from the spec: `werkzeug.security.check_password_hash` recomputes
the digest with the stored salt and compares. -/
def check_password_hash (pwhash : PwHash) (password : String) : Bool :=
  pwhash.digest == pbkdf2_sha256 pwhash.salt password

/-- Row of the `users` table: id (integer primary key), email (unique),
password (the stored werkzeug hash), name. -/
structure User where
  id : Nat
  email : String
  password : PwHash
  name : String
deriving DecidableEq

/-- Row of the `blog_posts` table: id (integer primary key), author_id
(foreign key to users, nullable column), title (unique, not null), subtitle,
date (human-readable string), body, img_url. -/
structure BlogPost where
  id : Nat
  authorId : Option Nat
  title : String
  subtitle : String
  date : String
  body : String
  imgUrl : String
deriving DecidableEq

/-- Row of the `comments` table: id (integer primary key), text (not null),
author_id (foreign key to users, nullable column), post_id (foreign key to
blog_posts, nullable column). -/
structure Comment where
  id : Nat
  text : String
  authorId : Option Nat
  postId : Option Nat
deriving DecidableEq

/-- The persistent store: the three relational tables, each a list of rows in
store order. -/
structure Store where
  users : List User
  posts : List BlogPost
  comments : List Comment
deriving DecidableEq

/-- Redirect targets produced via `url_for`. -/
inductive Endpoint where
  /-- `url_for("get_all_posts")`, the index page `/`. -/
  | getAllPosts
  /-- `url_for("login")`. -/
  | login
  /-- `url_for("show_post", post_id=...)`. -/
  | showPost (postId : Nat)
deriving DecidableEq

/-- Templates rendered by the embedded handlers. -/
inductive Template where
  /-- `login.html`. -/
  | loginPage
  /-- `post.html`. -/
  | postPage
deriving DecidableEq

/-- Flash messages emitted via `flash(...)`; each tag stands for the literal
string in the source. -/
inductive Flash where
  /-- "Email already exists! Please login instead." -/
  | emailExists
  /-- "This email doesn\x27t exist in our database!" -/
  | noSuchEmail
  /-- "Incorrect password, try again!" -/
  | wrongPassword
  /-- "You need to be logged in to make a comment!" -/
  | needLogin
deriving DecidableEq

/-- Python exception classes that escape the handler uncaught (Flask then
produces an HTTP 500 error page). -/
inductive PyExn where
  /-- `AttributeError`: attribute access on `None` or on the anonymous user. -/
  | attributeError
  /-- `sqlalchemy.exc.IntegrityError`: a UNIQUE constraint rejected the
  flush at `db.session.commit()`. -/
  | integrityError
  /-- `sqlalchemy.orm.exc.UnmappedInstanceError`: `db.session.delete(None)`. -/
  | unmappedInstanceError
deriving DecidableEq

/-- HTTP-level outcome of a request. -/
inductive Outcome where
  /-- `render_template(...)`. -/
  | render (t : Template)
  /-- `redirect(url_for(...))`. -/
  | redirect (e : Endpoint)
  /-- `abort(code)`. -/
  | httpError (code : Nat)
  /-- An uncaught Python exception of the given class. -/
  | pyFault (e : PyExn)
deriving DecidableEq

/-- What a handler hands back to the HTTP layer: the outcome and the flash
messages emitted during the request. -/
structure Response where
  outcome : Outcome
  flashes : List Flash
deriving DecidableEq

/-- SQLite integer-primary-key assignment: one more than the largest rowid in
the table (1 on an empty table). -/
def nextId (ids : List Nat) : Nat :=
  ids.foldr max 0 + 1

/-- `load_user` (the `@login_manager.user_loader`): `User.query.get(id)`. -/
def load_user (s : Store) (id : Nat) : Option User :=
  s.users.find? (fun u => u.id == id)

/-- flask_login's `current_user` resolved against the store: the session
carries an optional user id; if absent, or if `load_user` finds no row,
`current_user` is the anonymous user, modelled as `none`. -/
def current_user (s : Store) (sess : Option Nat) : Option User :=
  sess.bind (load_user s)

/-- The `@admin_only` decorator.  The source compares `current_user.id != 1`
and aborts with 403 when it differs.  When no user is logged in,
`current_user` is flask_login's `AnonymousUserMixin`, which has no `id`
attribute, so the comparison itself raises `AttributeError` (an uncaught
exception, HTTP 500) rather than reaching `abort(403)`. -/
def admin_only (s : Store) (sess : Option Nat)
    (f : User → Response × Store) : Response × Store :=
  match current_user s sess with
  | none => ({ outcome := .pyFault .attributeError, flashes := [] }, s)
  | some u => if u.id ≠ 1 then ({ outcome := .httpError 403, flashes := [] }, s) else f u

/-- The `/register` POST handler with a validated `RegisterForm`.  If a user
row with the submitted email exists, flashes a notice and redirects to login
without touching the store; otherwise hashes the password (salt drawn by
werkzeug, passed explicitly), inserts the new user row and redirects to the
index.  (`login_user(new_user)` touches only session state, outside the
store.) -/
def register (s : Store) (salt email password name : String) : Response × Store :=
  match s.users.find? (fun u => u.email == email) with
  | some _ => ({ outcome := .redirect .login, flashes := [.emailExists] }, s)
  | none =>
      let u : User :=
        { id := nextId (s.users.map (fun v => v.id))
          email := email
          password := generate_password_hash password salt
          name := name }
      ({ outcome := .redirect .getAllPosts, flashes := [] },
       { s with users := s.users ++ [u] })

/-- The `/login` POST handler with a validated `LoginForm`: looks the user up
by email, flashing a notice when no row matches; otherwise verifies the
submitted password against the stored hash, redirecting to the index on
success and flashing "Incorrect password" on failure.  Never writes to the
store (`login_user` touches only session state). -/
def login (s : Store) (email password : String) : Response × Store :=
  match s.users.find? (fun u => u.email == email) with
  | none => ({ outcome := .render .loginPage, flashes := [.noSuchEmail] }, s)
  | some u =>
      if check_password_hash u.password password then
        ({ outcome := .redirect .getAllPosts, flashes := [] }, s)
      else
        ({ outcome := .render .loginPage, flashes := [.wrongPassword] }, s)

/-- The `/post/<post_id>` POST handler with a validated `CommentForm`
(submitting a comment).  `requested_post = BlogPost.query.get(post_id)` is
fetched unguarded.  If `current_user.is_authenticated` is false the handler
flashes a notice and redirects to login without touching the store.
Otherwise it inserts the new comment row and commits before rendering:
the comment is persisted even when `post_id` matches no blog post.  The row's
`post_id` column follows the `post=requested_post` relationship assignment,
which takes precedence over the directly assigned `post_id=post_id` kwarg at
flush, so it is `post_id` when the post exists and NULL when
`requested_post` is `None`. -/
def show_post (s : Store) (sess : Option Nat) (post_id : Nat)
    (text : String) : Response × Store :=
  let requested_post := s.posts.find? (fun p => p.id == post_id)
  match current_user s sess with
  | none => ({ outcome := .redirect .login, flashes := [.needLogin] }, s)
  | some u =>
      let c : Comment :=
        { id := nextId (s.comments.map (fun d => d.id))
          text := text
          authorId := some u.id
          postId := requested_post.map (fun _ => post_id) }
      ({ outcome := .render .postPage, flashes := [] },
       { s with comments := s.comments ++ [c] })

/-- The `/new-post` POST handler with a validated `CreatePostForm`, wrapped in
`@admin_only`.  Builds the new post (author: the current user; date: today's
date formatted by `strftime`, passed explicitly) and commits.  The
`blog_posts.title` column carries a UNIQUE constraint and the handler performs
no duplicate check, so when the title collides with an existing row the commit
raises an uncaught `IntegrityError` and the insert is rolled back. -/
def add_new_post (s : Store) (sess : Option Nat)
    (today title subtitle body img_url : String) : Response × Store :=
  admin_only s sess fun u =>
    if s.posts.any (fun p => p.title == title) then
      ({ outcome := .pyFault .integrityError, flashes := [] }, s)
    else
      let p : BlogPost :=
        { id := nextId (s.posts.map (fun q => q.id))
          authorId := some u.id
          title := title
          subtitle := subtitle
          date := today
          body := body
          imgUrl := img_url }
      ({ outcome := .redirect .getAllPosts, flashes := [] },
       { s with posts := s.posts ++ [p] })

/-- The `/edit-post/<post_id>` POST handler with a validated
`CreatePostForm`, wrapped in `@admin_only`.  `BlogPost.query.get(post_id)` is
unguarded: on a missing id the pre-filling of the edit form dereferences
`None` (`post.title`) and raises an uncaught `AttributeError`.  Otherwise the
handler overwrites the post's title, subtitle, img_url, author and body from
the form (the `author` form field is modelled from the spec as the post's new
author reference, `forms.py` being absent from `src/`), leaves the date
column untouched, and commits; the UNIQUE title constraint rejects the update
when the new title collides with a different row. -/
def edit_post (s : Store) (sess : Option Nat) (post_id : Nat)
    (title subtitle img_url : String) (author : Option Nat)
    (body : String) : Response × Store :=
  admin_only s sess fun _ =>
    match s.posts.find? (fun p => p.id == post_id) with
    | none => ({ outcome := .pyFault .attributeError, flashes := [] }, s)
    | some post =>
        if s.posts.any (fun q => !(q.id == post_id) && q.title == title) then
          ({ outcome := .pyFault .integrityError, flashes := [] }, s)
        else
          let post' : BlogPost :=
            { post with
                title := title
                subtitle := subtitle
                imgUrl := img_url
                authorId := author
                body := body }
          ({ outcome := .redirect (.showPost post.id), flashes := [] },
           { s with posts := s.posts.map (fun q => if q.id == post_id then post' else q) })

/-- The `/delete/<post_id>` handler.  It carries no `@admin_only` decorator
and never consults `current_user`: the session argument is ignored.
`BlogPost.query.get(post_id)` is unguarded: on a missing id,
`db.session.delete(None)` raises an uncaught `UnmappedInstanceError`.
Otherwise the row is deleted and the commit's default relationship cascade
detaches the post's comments by nulling their `post_id` column (no cascading
delete is configured). -/
def delete_post (s : Store) (sess : Option Nat) (post_id : Nat) : Response × Store :=
  match s.posts.find? (fun p => p.id == post_id) with
  | none => ({ outcome := .pyFault .unmappedInstanceError, flashes := [] }, s)
  | some _ =>
      ({ outcome := .redirect .getAllPosts, flashes := [] },
       { s with
           posts := s.posts.filter (fun p => !(p.id == post_id))
           comments := s.comments.map (fun c =>
             if c.postId == some post_id then { c with postId := none } else c) })

/-- The referential-integrity invariant of §3 for the comments table: every
comment's author reference and post reference resolve to existing rows. -/
def comment_refs_resolve (s : Store) : Bool :=
  s.comments.all (fun c =>
    (s.users.any (fun u => some u.id == c.authorId)) &&
    (s.posts.any (fun p => some p.id == c.postId)))

/-! Concrete fixtures used by witnesses and counterexamples. -/

/-- The first-ever registered user, id 1: the fixed admin of the gate. -/
def adminUser : User :=
  { id := 1, email := "admin@x.com"
    password := generate_password_hash "pw1" "salt1234", name := "Admin" }

/-- A second registered, non-admin user, id 2. -/
def aliceUser : User :=
  { id := 2, email := "a@x.com"
    password := generate_password_hash "pw2" "salt5678", name := "A" }

/-- A blog post with id 1, titled "T1", authored by the admin. -/
def post1 : BlogPost :=
  { id := 1, authorId := some 1, title := "T1", subtitle := "S1"
    date := "April 03, 2024", body := "B1", imgUrl := "u1" }

/-- Store holding both users and `post1`. -/
def store1 : Store :=
  { users := [adminUser, aliceUser], posts := [post1], comments := [] }

/-- Store holding only the admin user and no posts. -/
def storeNoPosts : Store :=
  { users := [adminUser], posts := [], comments := [] }

/-! Shared helper lemmas. -/

/-- Appending a fresh matching element to a list in which `find?` fails makes
`find?` return exactly that element. -/
theorem find?_append_singleton {α : Type} (p : α → Bool) (l : List α) (a : α)
    (h : l.find? p = none) (ha : p a = true) :
    (l ++ [a]).find? p = some a := by
  rw [List.find?_append, h, Option.none_or, List.find?_cons, ha]

/-- In a list of posts with pairwise distinct ids, any member sharing its id
with the result of a `find?` by id is that result. -/
theorem post_eq_of_id_eq {posts : List BlogPost} {post_id : Nat} {p q : BlogPost}
    (hnd : (posts.map (fun r => r.id)).Nodup)
    (hp : posts.find? (fun r => r.id == post_id) = some p)
    (hq : q ∈ posts) (hid : q.id = post_id) : q = p := by
  have hpm : p ∈ posts := List.mem_of_find?_eq_some hp
  have hpid : p.id = post_id := by
    have := List.find?_some hp
    simpa using this
  exact List.inj_on_of_nodup_map hnd hq hpm (by rw [hid, hpid])

/-! Claim theorems. -/

/-- C2: `delete_post` is gated by no authentication or admin check — the
session argument is arbitrary, including `none` — and for every existing post
id the handler redirects to the index page and the post row is removed from
the store (the remaining rows are exactly those with a different id, in
order). -/
theorem delete_post_ungated (s : Store) (sess : Option Nat) (post_id : Nat)
    (p : BlogPost) (hp : s.posts.find? (fun q => q.id == post_id) = some p) :
    (delete_post s sess post_id).1.outcome = .redirect .getAllPosts ∧
    (delete_post s sess post_id).2.posts = s.posts.filter (fun q => !(q.id == post_id)) ∧
    ∀ q ∈ (delete_post s sess post_id).2.posts, q.id ≠ post_id := by
  unfold delete_post
  rw [hp]
  refine ⟨rfl, rfl, ?_⟩
  intro q hq
  simp only [List.mem_filter] at hq
  simpa using hq.2

/-- C2 witness: an anonymous caller deletes post 1 from `store1`. -/
theorem delete_post_ungated_app :
    (delete_post store1 none 1).1.outcome = .redirect .getAllPosts ∧
    (delete_post store1 none 1).2.posts = store1.posts.filter (fun q => !(q.id == 1)) ∧
    ∀ q ∈ (delete_post store1 none 1).2.posts, q.id ≠ 1 :=
  delete_post_ungated store1 none 1 post1 rfl

/-- C6: registering with an email already present in the users table flashes
the duplicate-email notice and redirects to login; the store is returned
unchanged, so no user row is added and the existing rows are untouched. -/
theorem register_duplicate_email (s : Store) (salt email password name : String)
    (u : User) (hu : s.users.find? (fun v => v.email == email) = some u) :
    register s salt email password name =
      ({ outcome := .redirect .login, flashes := [.emailExists] }, s) := by
  unfold register
  rw [hu]

/-- C6 witness: re-registering `aliceUser`'s email against `store1`. -/
theorem register_duplicate_email_app :
    register store1 "z" "a@x.com" "other" "N" =
      ({ outcome := .redirect .login, flashes := [.emailExists] }, store1) :=
  register_duplicate_email store1 "z" "a@x.com" "other" "N" aliceUser rfl

/-- C9: submitting a comment with no authenticated session identity flashes
the login notice and redirects to login; the store is returned unchanged, so
the comments table is exactly as it was before the attempt. -/
theorem show_post_unauthenticated (s : Store) (sess : Option Nat)
    (post_id : Nat) (text : String) (h : current_user s sess = none) :
    show_post s sess post_id text =
      ({ outcome := .redirect .login, flashes := [.needLogin] }, s) := by
  unfold show_post
  rw [h]

/-- C9 witness: an anonymous comment attempt on post 1 of `store1`. -/
theorem show_post_unauthenticated_app :
    show_post store1 none 1 "hi" =
      ({ outcome := .redirect .login, flashes := [.needLogin] }, store1) :=
  show_post_unauthenticated store1 none 1 "hi" rfl

/-- C10: deleting a post id with no corresponding row makes
`db.session.delete(None)` raise an uncaught `UnmappedInstanceError` — the
handler faults rather than redirecting or reporting NotFound — and the store
is returned unchanged. -/
theorem delete_post_missing_faults (s : Store) (sess : Option Nat)
    (post_id : Nat) (h : s.posts.find? (fun p => p.id == post_id) = none) :
    delete_post s sess post_id =
      ({ outcome := .pyFault .unmappedInstanceError, flashes := [] }, s) := by
  unfold delete_post
  rw [h]

/-- C10 witness: deleting the nonexistent post 99 from `store1`. -/
theorem delete_post_missing_faults_app :
    delete_post store1 none 99 =
      ({ outcome := .pyFault .unmappedInstanceError, flashes := [] }, store1) :=
  delete_post_missing_faults store1 none 99 rfl

/-- C5: editing a nonexistent post id as the admin does not produce the
recoverable NotFound the spec requires: the unguarded
`BlogPost.query.get(post_id)` returns `None` and pre-filling the edit form
dereferences it, raising an uncaught `AttributeError` (HTTP 500).  The store
is returned unchanged. -/
theorem edit_post_missing_post_faults (s : Store) (sess : Option Nat) (u : User)
    (hu : current_user s sess = some u) (hadmin : u.id = 1) (post_id : Nat)
    (h : s.posts.find? (fun p => p.id == post_id) = none)
    (title subtitle img_url : String) (author : Option Nat) (body : String) :
    edit_post s sess post_id title subtitle img_url author body =
      ({ outcome := .pyFault .attributeError, flashes := [] }, s) := by
  unfold edit_post admin_only
  rw [hu]
  simp [hadmin, h]

/-- C5 witness: the admin edits the nonexistent post 7 of `storeNoPosts`. -/
theorem edit_post_missing_post_faults_app :
    edit_post storeNoPosts (some 1) 7 "T" "S" "U" none "B" =
      ({ outcome := .pyFault .attributeError, flashes := [] }, storeNoPosts) :=
  edit_post_missing_post_faults storeNoPosts (some 1) adminUser rfl rfl 7 rfl
    "T" "S" "U" none "B"

/-- C3: the referential-integrity invariant fails on the code.  An
authenticated user submitting a comment on the nonexistent post id 5 of
`storeNoPosts` has the comment committed before rendering: a comment row is
persisted (the comments table becomes nonempty) whose post reference resolves
to no blog post, so `comment_refs_resolve` is false after the operation. -/
theorem add_comment_dangling_post_ref :
    (show_post storeNoPosts (some 1) 5 "hello").2.comments ≠ [] ∧
    comment_refs_resolve (show_post storeNoPosts (some 1) 5 "hello").2 = false := by
  constructor
  · intro h
    simp [show_post, storeNoPosts, current_user, load_user, adminUser] at h
  · rfl

/-- C1 counterexample: the claim says a create_post request with no session
identity fails with Forbidden (HTTP 403).  It does not: the admin gate
evaluates `current_user.id` on flask_login's anonymous user, which has no
`id` attribute, so the request dies with an uncaught `AttributeError`
(HTTP 500), not with `abort(403)`. -/
theorem add_new_post_anonymous_not_forbidden :
    (add_new_post storeNoPosts none "d" "T" "S" "B" "U").1.outcome = .pyFault .attributeError ∧
    (add_new_post storeNoPosts none "d" "T" "S" "B" "U").1.outcome ≠ .httpError 403 := by
  constructor
  · rfl
  · intro h
    simp [add_new_post, admin_only, storeNoPosts, current_user, load_user] at h

/-- C1 (amended): the gated operations create_post and edit_post reject every
request lacking the fixed admin identity before any mutation — the store is
returned exactly unchanged — but the failure mode splits: a session identity
with user id other than 1 receives Forbidden (HTTP 403), while a request with
no session identity faults with an uncaught `AttributeError` (HTTP 500)
instead of Forbidden.  In both cases no BlogPost row is created or mutated. -/
theorem admin_gate_rejects_before_mutation (s : Store) (sess : Option Nat)
    (today title subtitle body img_url : String) (post_id : Nat)
    (title2 subtitle2 img2 : String) (author : Option Nat) (body2 : String) :
    (current_user s sess = none →
      add_new_post s sess today title subtitle body img_url =
        ({ outcome := .pyFault .attributeError, flashes := [] }, s) ∧
      edit_post s sess post_id title2 subtitle2 img2 author body2 =
        ({ outcome := .pyFault .attributeError, flashes := [] }, s)) ∧
    (∀ u, current_user s sess = some u → u.id ≠ 1 →
      add_new_post s sess today title subtitle body img_url =
        ({ outcome := .httpError 403, flashes := [] }, s) ∧
      edit_post s sess post_id title2 subtitle2 img2 author body2 =
        ({ outcome := .httpError 403, flashes := [] }, s)) := by
  constructor
  · intro h
    constructor
    · unfold add_new_post admin_only
      rw [h]
    · unfold edit_post admin_only
      rw [h]
  · intro u hu hne
    constructor
    · unfold add_new_post admin_only
      rw [hu]
      simp [hne]
    · unfold edit_post admin_only
      rw [hu]
      simp [hne]

/-- C1 witness: against `store1`, an anonymous create_post attempt faults
with `AttributeError` and a create_post attempt by user 2 receives 403; the
store is unchanged in both cases. -/
theorem admin_gate_rejects_before_mutation_app :
    add_new_post store1 none "d" "T9" "S" "B" "U" =
      ({ outcome := .pyFault .attributeError, flashes := [] }, store1) ∧
    add_new_post store1 (some 2) "d" "T9" "S" "B" "U" =
      ({ outcome := .httpError 403, flashes := [] }, store1) :=
  ⟨((admin_gate_rejects_before_mutation store1 none "d" "T9" "S" "B" "U"
      1 "t" "s" "i" none "b").1 rfl).1,
   ((admin_gate_rejects_before_mutation store1 (some 2) "d" "T9" "S" "B" "U"
      1 "t" "s" "i" none "b").2 aliceUser rfl (by decide)).1⟩

/-- C4 counterexample: the claim says creating a post whose title already
exists fails with a recoverable DuplicateTitle, not a process crash.  With
the admin logged in to `store1` (which holds a post titled "T1"), creating
another post titled "T1" instead raises an uncaught
`sqlalchemy.exc.IntegrityError` at commit — the request crashes with an
HTTP 500, not a handled error. -/
theorem add_new_post_duplicate_title_crashes :
    (add_new_post store1 (some 1) "d" "T1" "S" "B" "U").1.outcome = .pyFault .integrityError := by
  rfl

/-- C4 (amended): with the admin logged in, creating a post whose title
equals an existing post's title fails — the UNIQUE constraint on
`blog_posts.title` rejects the insert at commit, surfacing as an uncaught
`IntegrityError` rather than a recoverable DuplicateTitle — and the store is
returned unchanged: no new BlogPost row is added and existing rows are
unmodified. -/
theorem add_new_post_duplicate_title (s : Store) (sess : Option Nat) (u : User)
    (hu : current_user s sess = some u) (hadmin : u.id = 1)
    (today title subtitle body img_url : String)
    (hdup : s.posts.any (fun p => p.title == title) = true) :
    add_new_post s sess today title subtitle body img_url =
      ({ outcome := .pyFault .integrityError, flashes := [] }, s) := by
  unfold add_new_post admin_only
  rw [hu]
  simp [hadmin, hdup]

/-- C4 witness: the admin re-creates title "T1" against `store1`. -/
theorem add_new_post_duplicate_title_app :
    add_new_post store1 (some 1) "d" "T1" "S" "B" "U" =
      ({ outcome := .pyFault .integrityError, flashes := [] }, store1) :=
  add_new_post_duplicate_title store1 (some 1) adminUser rfl rfl
    "d" "T1" "S" "B" "U" (by decide)

/-- When the email lookup succeeds, `login` reduces to the password check on
the found user's stored hash. -/
theorem login_found (s : Store) (email password : String) (u : User)
    (hu : s.users.find? (fun v => v.email == email) = some u) :
    login s email password =
      if check_password_hash u.password password then
        ({ outcome := .redirect .getAllPosts, flashes := [] }, s)
      else
        ({ outcome := .render .loginPage, flashes := [.wrongPassword] }, s) := by
  unfold login
  rw [hu]

/-- C7: registering a fresh email stores a salted PBKDF2-SHA256 hash of the
password, and a later login for that email verifies exactly the original
plaintext: login with the registered password succeeds (redirect to the
index), and login with any other plaintext fails verification (the incorrect
password notice, no redirect). -/
theorem register_login_roundtrip (s : Store) (salt email password name : String)
    (hfresh : s.users.find? (fun u => u.email == email) = none) :
    (login (register s salt email password name).2 email password).1 =
      { outcome := .redirect .getAllPosts, flashes := [] } ∧
    ∀ q : String, q ≠ password →
      (login (register s salt email password name).2 email q).1 =
        { outcome := .render .loginPage, flashes := [.wrongPassword] } := by
  have h2 : (register s salt email password name).2 =
      { s with users := s.users ++
          [{ id := nextId (s.users.map (fun v => v.id)), email := email
             password := generate_password_hash password salt, name := name }] } := by
    unfold register
    rw [hfresh]
  rw [h2]
  have hfind : (s.users ++
      [({ id := nextId (s.users.map (fun v => v.id)), email := email
          password := generate_password_hash password salt, name := name } : User)]).find?
        (fun v => v.email == email) =
      some { id := nextId (s.users.map (fun v => v.id)), email := email
             password := generate_password_hash password salt, name := name } :=
    find?_append_singleton _ _ _ hfresh (by simp)
  constructor
  · rw [login_found _ email password _ hfind]
    have hc : check_password_hash (generate_password_hash password salt) password = true := by
      simp [check_password_hash, generate_password_hash, pbkdf2_sha256]
    simp [hc]
  · intro q hq
    rw [login_found _ email q _ hfind]
    have hc : check_password_hash (generate_password_hash password salt) q = false := by
      simp only [check_password_hash, generate_password_hash, pbkdf2_sha256]
      rw [beq_eq_false_iff_ne]
      intro heq
      exact hq (String.ext (List.append_cancel_left heq)).symm
    simp [hc]

/-- C7 witness: registering `b@x.com` with password `pw9` against `store1`,
then logging in with `pw9` (success) and with `pw8` (failed verification). -/
theorem register_login_roundtrip_app :
    (login (register store1 "s9" "b@x.com" "pw9" "B").2 "b@x.com" "pw9").1 =
      { outcome := .redirect .getAllPosts, flashes := [] } ∧
    (login (register store1 "s9" "b@x.com" "pw9" "B").2 "b@x.com" "pw8").1 =
      { outcome := .render .loginPage, flashes := [.wrongPassword] } :=
  ⟨(register_login_roundtrip store1 "s9" "b@x.com" "pw9" "B" rfl).1,
   (register_login_roundtrip store1 "s9" "b@x.com" "pw9" "B" rfl).2 "pw8" (by decide)⟩

/-- C8: with the admin logged in, editing an existing post (whose new title
collides with no other row) succeeds with a redirect to the post page and
overwrites exactly the title, subtitle, image URL, author and body columns of
that row — its id and creation date are untouched — while every other post
row, the users table and the comments table are unmodified. -/
theorem edit_post_frame (s : Store) (sess : Option Nat) (u : User)
    (hu : current_user s sess = some u) (hadmin : u.id = 1)
    (post_id : Nat) (p : BlogPost)
    (hp : s.posts.find? (fun q => q.id == post_id) = some p)
    (hnd : (s.posts.map (fun q => q.id)).Nodup)
    (title subtitle img_url : String) (author : Option Nat) (body : String)
    (hti : s.posts.any (fun q => !(q.id == post_id) && q.title == title) = false) :
    (edit_post s sess post_id title subtitle img_url author body).1 =
      { outcome := .redirect (.showPost post_id), flashes := [] } ∧
    (edit_post s sess post_id title subtitle img_url author body).2.users = s.users ∧
    (edit_post s sess post_id title subtitle img_url author body).2.comments = s.comments ∧
    (edit_post s sess post_id title subtitle img_url author body).2.posts =
      s.posts.map (fun q =>
        if q.id = post_id then
          { q with title := title, subtitle := subtitle, imgUrl := img_url
                   authorId := author, body := body }
        else q) := by
  have hpid : p.id = post_id := by simpa using List.find?_some hp
  have hmain : edit_post s sess post_id title subtitle img_url author body =
      ({ outcome := .redirect (.showPost p.id), flashes := [] },
       { s with posts := s.posts.map (fun q =>
           if q.id == post_id then
             { p with title := title, subtitle := subtitle, imgUrl := img_url
                      authorId := author, body := body }
           else q) }) := by
    unfold edit_post admin_only
    rw [hu]
    simp only [hadmin, ne_eq, not_true_eq_false, if_false]
    rw [hp]
    simp [hti]
  rw [hmain]
  refine ⟨by rw [hpid], rfl, rfl, ?_⟩
  apply List.map_congr_left
  intro q hq
  by_cases hcase : q.id = post_id
  · have hqp : q = p := post_eq_of_id_eq hnd hp hq hcase
    subst hqp
    simp [hcase]
  · simp [hcase]

/-- C8 witness: the admin edits post 1 of `store1`, overwriting the five
columns; the date column and the other tables are untouched. -/
theorem edit_post_frame_app :
    (edit_post store1 (some 1) 1 "T2" "S2" "U2" (some 2) "B2").1 =
      { outcome := .redirect (.showPost 1), flashes := [] } ∧
    (edit_post store1 (some 1) 1 "T2" "S2" "U2" (some 2) "B2").2.users = store1.users ∧
    (edit_post store1 (some 1) 1 "T2" "S2" "U2" (some 2) "B2").2.comments = store1.comments ∧
    (edit_post store1 (some 1) 1 "T2" "S2" "U2" (some 2) "B2").2.posts =
      store1.posts.map (fun q =>
        if q.id = 1 then
          { q with title := "T2", subtitle := "S2", imgUrl := "U2"
                   authorId := some 2, body := "B2" }
        else q) :=
  edit_post_frame store1 (some 1) adminUser rfl rfl 1 post1 rfl (by decide)
    "T2" "S2" "U2" (some 2) "B2" rfl

end Day69
